import Mathlib

/-!
# Verification of the user-management CRUD service

A shallow embedding of `src/server.js`: an Express HTTP service managing a
single `users` table in SQLite.  Request payloads, the validation chain, the
flat-row/nested-wire record mapper, and each route handler are translated
into pure Lean functions; the SQLite table is modelled as an explicit state
(list of rows plus the autoincrement counter and a logical clock supplying
`CURRENT_TIMESTAMP` values).  Storage-callback failures are modelled by
feeding an `Except` value to the handler continuation, mirroring the
`(err, rows)` callback convention of the `sqlite3` driver.
-/

namespace UserService

/-! ## String primitives

The JS code relies on library string routines (`trim`, substring search,
`validator.js` checks).  They are modelled here structurally over `List Char`
so that all definitions compute by kernel reduction. -/

/-- Whitespace recognised by `String.prototype.trim` (the common cases). -/
def isSpaceChar (c : Char) : Bool :=
  c == ' ' || c == '\t' || c == '\n' || c == '\r'

/-- Trim leading and trailing whitespace from a character list. -/
def trimList (cs : List Char) : List Char :=
  ((cs.dropWhile isSpaceChar).reverse.dropWhile isSpaceChar).reverse

/-- Model of `String.prototype.trim`, as used by the `.trim()` sanitizers. -/
def trimStr (s : String) : String :=
  String.mk (trimList s.data)

/-- Split a character list on a separator character. -/
def splitOnChar (sep : Char) (cs : List Char) : List (List Char) :=
  cs.foldr
    (fun x acc =>
      if x == sep then [] :: acc
      else
        match acc with
        | [] => [[x]]
        | g :: gs => (x :: g) :: gs)
    [[]]

/-- Is `needle` an initial segment of `hay`? -/
def isPrefixList : List Char → List Char → Bool
  | [], _ => true
  | _ :: _, [] => false
  | a :: as, b :: bs => a == b && isPrefixList as bs

/-- Does `hay` contain `needle` as a contiguous substring? -/
def containsSub (needle : List Char) : List Char → Bool
  | [] => isPrefixList needle []
  | c :: t => isPrefixList needle (c :: t) || containsSub needle t

/-- Model of `err.message.includes('UNIQUE constraint failed')`, the duplicate-email
test in the create/update callbacks. -/
def includesUniqueConstraint (e : String) : Bool :=
  containsSub "UNIQUE constraint failed".data e.data

/-- Lower-case one ASCII character. -/
def lowerChar (c : Char) : Char :=
  if 'A' ≤ c && c ≤ 'Z' then Char.ofNat (c.toNat + 32) else c

/-- Simplified model of the third-party `normalizeEmail` sanitizer: its default
behaviour lower-cases the address (provider-specific rewrites are omitted). -/
def normalizeEmail (s : String) : String :=
  String.mk (s.data.map lowerChar)

/-- Numeric value of a digit list. -/
def digitsToNat (cs : List Char) : Nat :=
  cs.foldl (fun a c => a * 10 + (c.toNat - 48)) 0

/-- Simplified model of the third-party `isEmail` check: one `@`, a nonempty
local part, and a domain made of nonempty dot-separated labels (at least two). -/
def isEmailStr (s : String) : Bool :=
  match splitOnChar '@' s.data with
  | [lp, dom] =>
    decide (1 ≤ lp.length) &&
      (let labels := splitOnChar '.' dom
       decide (2 ≤ labels.length) && labels.all (fun l => decide (1 ≤ l.length)))
  | _ => false

/-- A SQLite `REAL` value, represented exactly as a scaled decimal
`mant / 10 ^ exp` (the decimal literals accepted by the validator all have
this form). -/
structure RealVal where
  mant : Int
  exp : Nat
deriving DecidableEq, Repr

/-- Parse an unsigned decimal literal (`digits`, `digits.digits` or `.digits`)
as a scaled decimal. -/
def parseFloatChars (cs : List Char) : Option RealVal :=
  match splitOnChar '.' cs with
  | [ip] =>
    if ip ≠ [] && ip.all Char.isDigit then
      some { mant := (digitsToNat ip : Int), exp := 0 }
    else none
  | [ip, fp] =>
    if ip.all Char.isDigit && (fp ≠ [] && fp.all Char.isDigit) then
      some { mant := (digitsToNat (ip ++ fp) : Int), exp := fp.length }
    else none
  | _ => none

/-- Simplified model of the third-party `isFloat` validator joined with the
REAL-affinity conversion applied by storage: an optional sign followed by a
decimal literal parses to its value (exponent forms are omitted). -/
def parseFloat? (s : String) : Option RealVal :=
  match s.data with
  | '-' :: rest => (parseFloatChars rest).map (fun q => { q with mant := -q.mant })
  | '+' :: rest => parseFloatChars rest
  | cs => parseFloatChars cs

/-- The `isFloat()` validator: the value parses as a float literal. -/
def isFloatStr (s : String) : Bool :=
  (parseFloat? s).isSome

/-! ## Wire payloads

The JSON request body for create/update.  Every field may be absent
(`express-validator` treats an absent field as the empty string); `extra`
models any additional JSON members beyond the ones the handlers destructure
(`const { name, email, phone, company, address } = req.body`). -/

/-- The `address.geo` object as it arrives on the wire. -/
structure GeoRaw where
  lat : Option String
  lng : Option String
  extra : List (String × String)
deriving DecidableEq, Repr

/-- The `address` object as it arrives on the wire. -/
structure AddressRaw where
  street : Option String
  city : Option String
  zip : Option String
  geo : Option GeoRaw
  extra : List (String × String)
deriving DecidableEq, Repr

/-- The request body of `POST /api/users` and `PUT /api/users/:id`. -/
structure PayloadRaw where
  name : Option String
  email : Option String
  phone : Option String
  company : Option String
  address : Option AddressRaw
  extra : List (String × String)
deriving DecidableEq, Repr

/-- The wire value at path `address.street` (absent when `address` is). -/
def pathStreet (p : PayloadRaw) : Option String := p.address.bind AddressRaw.street

/-- The wire value at path `address.city`. -/
def pathCity (p : PayloadRaw) : Option String := p.address.bind AddressRaw.city

/-- The wire value at path `address.zip`. -/
def pathZip (p : PayloadRaw) : Option String := p.address.bind AddressRaw.zip

/-- The wire value at path `address.geo.lat`. -/
def pathGeoLat (p : PayloadRaw) : Option String :=
  (p.address.bind AddressRaw.geo).bind GeoRaw.lat

/-- The wire value at path `address.geo.lng`. -/
def pathGeoLng (p : PayloadRaw) : Option String :=
  (p.address.bind AddressRaw.geo).bind GeoRaw.lng

/-! ## Validator (src/server.js lines 46–69) -/

/-- One entry of `errors.array()`: the validated path and its message. -/
structure FieldError where
  path : String
  msg : String
deriving DecidableEq, Repr

/-- The `.trim().isLength({ min: 1 })` check on an optional wire value
(an absent value validates as the empty string). -/
def nonEmptyAfterTrim (v : Option String) : Bool :=
  decide (1 ≤ (trimStr (v.getD "")).data.length)

/-- The `validateUser` chain: each entry mirrors one `body(...)` validator,
in chain order, producing the field-level error list. -/
def validateUser (p : PayloadRaw) : List FieldError :=
  (if nonEmptyAfterTrim p.name then [] else [{ path := "name", msg := "Name is required" }]) ++
  (if isEmailStr (p.email.getD "") then [] else
    [{ path := "email", msg := "Valid email is required" }]) ++
  (if nonEmptyAfterTrim p.phone then [] else [{ path := "phone", msg := "Phone is required" }]) ++
  (if nonEmptyAfterTrim p.company then [] else
    [{ path := "company", msg := "Company is required" }]) ++
  (if nonEmptyAfterTrim (pathStreet p) then [] else
    [{ path := "address.street", msg := "Street address is required" }]) ++
  (if nonEmptyAfterTrim (pathCity p) then [] else
    [{ path := "address.city", msg := "City is required" }]) ++
  (if nonEmptyAfterTrim (pathZip p) then [] else
    [{ path := "address.zip", msg := "Zip code is required" }]) ++
  (if isFloatStr ((pathGeoLat p).getD "") then [] else
    [{ path := "address.geo.lat", msg := "Valid latitude is required" }]) ++
  (if isFloatStr ((pathGeoLng p).getD "") then [] else
    [{ path := "address.geo.lng", msg := "Valid longitude is required" }])

/-! ## Storage schema and record mapper -/

/-- The nine client-supplied columns of the `users` table, i.e. the flat
column set produced by the insert/update parameter lists
(src/server.js lines 186–190 and 227–231). -/
structure StoredFields where
  name : String
  email : String
  phone : String
  company : String
  address_street : String
  address_city : String
  address_zip : String
  geo_lat : RealVal
  geo_lng : RealVal
deriving DecidableEq, Repr

/-- One row of the `users` table. -/
structure Row where
  id : Nat
  name : String
  email : String
  phone : String
  company : String
  address_street : String
  address_city : String
  address_zip : String
  geo_lat : RealVal
  geo_lng : RealVal
  created_at : Nat
  updated_at : Nat
deriving DecidableEq, Repr

/-- The `address.geo` object in the nested wire representation. -/
structure GeoWire where
  lat : RealVal
  lng : RealVal
deriving DecidableEq, Repr

/-- The `address` object in the nested wire representation. -/
structure AddressWire where
  street : String
  city : String
  zip : String
  geo : GeoWire
deriving DecidableEq, Repr

/-- A validated user payload in nested wire shape: the body
`{name, email, phone, company, address: {street, city, zip, geo: {lat, lng}}}`. -/
structure UserPayload where
  name : String
  email : String
  phone : String
  company : String
  address : AddressWire
deriving DecidableEq, Repr

/-- A user as returned to the client: the expanded row. -/
structure UserOut where
  id : Nat
  name : String
  email : String
  phone : String
  company : String
  address : AddressWire
  created_at : Nat
  updated_at : Nat
deriving DecidableEq, Repr

/-- Flatten: the nested wire object becomes the flat column set, exactly the
`params` construction of the create/update handlers (src/server.js 186–190). -/
def flatten (x : UserPayload) : StoredFields :=
  { name := x.name
  , email := x.email
  , phone := x.phone
  , company := x.company
  , address_street := x.address.street
  , address_city := x.address.city
  , address_zip := x.address.zip
  , geo_lat := x.address.geo.lat
  , geo_lng := x.address.geo.lng }

/-- Expand: a flat row becomes the nested wire object, exactly the `rows.map`
transformation of the list/get handlers (src/server.js 96–113). -/
def expand (row : Row) : UserOut :=
  { id := row.id
  , name := row.name
  , email := row.email
  , phone := row.phone
  , company := row.company
  , address :=
    { street := row.address_street
    , city := row.address_city
    , zip := row.address_zip
    , geo := { lat := row.geo_lat, lng := row.geo_lng } }
  , created_at := row.created_at
  , updated_at := row.updated_at }

/-- The sanitized request body as the handlers see it after the validator
chain ran: text fields trimmed by the `.trim()` sanitizers, the email
normalized, the geo coordinates converted to REAL by column affinity
(defaults for absent fields are never reached on the post-validation path). -/
def storedFields (p : PayloadRaw) : StoredFields :=
  { name := trimStr (p.name.getD "")
  , email := normalizeEmail (p.email.getD "")
  , phone := trimStr (p.phone.getD "")
  , company := trimStr (p.company.getD "")
  , address_street := trimStr ((pathStreet p).getD "")
  , address_city := trimStr ((pathCity p).getD "")
  , address_zip := trimStr ((pathZip p).getD "")
  , geo_lat := (parseFloat? ((pathGeoLat p).getD "")).getD { mant := 0, exp := 0 }
  , geo_lng := (parseFloat? ((pathGeoLng p).getD "")).getD { mant := 0, exp := 0 } }

/-! ## Database state and SQL operations

The `users` table is a list of rows together with the `AUTOINCREMENT`
counter and a logical clock supplying `CURRENT_TIMESTAMP` values; the clock
strictly increases at each write that stores a timestamp, so creation
timestamps are distinct and increasing. -/

/-- The state of the SQLite database. -/
structure DBState where
  rows : List Row
  nextId : Nat
  clock : Nat
deriving DecidableEq, Repr

/-- The freshly created database: empty table, ids from 1. -/
def initState : DBState := { rows := [], nextId := 1, clock := 0 }

/-- The row written by `INSERT` for column values `f`, id `newId` and
timestamp `ts` (both timestamp columns default to `CURRENT_TIMESTAMP`). -/
def insertRow (f : StoredFields) (newId ts : Nat) : Row :=
  { id := newId
  , name := f.name
  , email := f.email
  , phone := f.phone
  , company := f.company
  , address_street := f.address_street
  , address_city := f.address_city
  , address_zip := f.address_zip
  , geo_lat := f.geo_lat
  , geo_lng := f.geo_lng
  , created_at := ts
  , updated_at := ts }

/-- The comparison behind `ORDER BY created_at DESC`: `a` comes no later than
`b` in the output when `a` was created no earlier than `b`. -/
def createdDesc (a b : Row) : Prop := b.created_at ≤ a.created_at

instance : DecidableRel createdDesc := fun a b => Nat.decLe _ _

/-- Model of `ORDER BY created_at DESC`: sort the rows by creation time, most recent
first (the service never produces two equal creation timestamps). -/
def sortByCreatedDesc (rows : List Row) : List Row :=
  rows.insertionSort createdDesc

/-- SQLite INTEGER affinity applied to the text `:id` parameter in
`WHERE id = ?`: a digit string converts to the integer it denotes and can
match a stored id; any other string matches no integer id. -/
def parseIdParam (s : String) : Option Nat :=
  if s.data ≠ [] && s.data.all Char.isDigit then some (digitsToNat s.data) else none

/-- Model of `SELECT ... FROM users WHERE id = ?`: the first row whose id matches the
path parameter, if any. -/
def findRowByParam (idp : String) (s : DBState) : Option Row :=
  match parseIdParam idp with
  | some n => s.rows.find? (fun r => r.id == n)
  | none => none

/-- Model of `INSERT INTO users (...) VALUES (...)`: fails with the UNIQUE-constraint
message when the email is already stored, otherwise appends the new row,
returning `this.lastID` and the new state. -/
def runInsert (f : StoredFields) (s : DBState) : Except String (Nat × DBState) :=
  if s.rows.any (fun r => r.email == f.email) then
    .error "SQLITE_CONSTRAINT: UNIQUE constraint failed: users.email"
  else
    .ok (s.nextId,
      { rows := s.rows ++ [insertRow f s.nextId s.clock]
      , nextId := s.nextId + 1
      , clock := s.clock + 1 })

/-- Model of `UPDATE users SET ... WHERE id = ?`: replaces every client-supplied column
of the matched row and refreshes `updated_at`; fails with the
UNIQUE-constraint message when the new email belongs to a different row;
returns `this.changes` and the new state. -/
def runUpdate (idp : String) (f : StoredFields) (s : DBState) :
    Except String (Nat × DBState) :=
  match findRowByParam idp s with
  | none => .ok (0, s)
  | some target =>
    if s.rows.any (fun r => r.id != target.id && r.email == f.email) then
      .error "SQLITE_CONSTRAINT: UNIQUE constraint failed: users.email"
    else
      .ok (1,
        { rows := s.rows.map (fun r =>
            if r.id == target.id then
              { r with
                name := f.name
                email := f.email
                phone := f.phone
                company := f.company
                address_street := f.address_street
                address_city := f.address_city
                address_zip := f.address_zip
                geo_lat := f.geo_lat
                geo_lng := f.geo_lng
                updated_at := s.clock }
            else r)
        , nextId := s.nextId
        , clock := s.clock + 1 })

/-- Model of `DELETE FROM users WHERE id = ?`: removes the matched rows, returning
`this.changes` and the new state. -/
def runDelete (idp : String) (s : DBState) : Nat × DBState :=
  match parseIdParam idp with
  | none => (0, s)
  | some n =>
    let remaining := s.rows.filter (fun r => r.id != n)
    (s.rows.length - remaining.length, { s with rows := remaining })

/-! ## Responses and request handlers -/

/-- The `data` member of a response envelope. -/
inductive RespData where
  | users : List UserOut → RespData
  | user : UserOut → RespData
  | createdId : Nat → RespData
deriving DecidableEq, Repr

/-- A JSON response: the HTTP status plus every member any handler ever puts
in the body (`success`, `message`, `data`, `errors`, the raw `error` detail
of the 500 branches, and the health check's `timestamp`); `none` means the
member is absent from the JSON object. -/
structure Response where
  status : Nat
  success : Bool
  message : Option String := none
  data : Option RespData := none
  errors : Option (List FieldError) := none
  error : Option String := none
  timestamp : Option Nat := none
deriving DecidableEq, Repr

/-- The process environment: `process.env.NODE_ENV` (the operating mode).
Handlers receive it because the running process always has one; only the
final error-handling middleware actually reads it. -/
structure Config where
  nodeEnv : Option String
deriving DecidableEq, Repr

/-- The `handleValidationErrors` helper (src 59–69): the 400 envelope returned when the
validation chain produced errors. -/
def validationFailedResponse (errs : List FieldError) : Response :=
  { status := 400, success := false, message := some "Validation failed", errors := some errs }

/-- The `db.all` callback of `GET /api/users` (src 85–119). -/
def listCallback (cfg : Config) (res : Except String (List Row)) : Response :=
  match res with
  | .error e =>
    { status := 500, success := false, message := some "Failed to fetch users", error := some e }
  | .ok rows =>
    { status := 200, success := true, data := some (.users (rows.map expand)) }

/-- Handler of `GET /api/users`: run the ordered select and shape the rows. -/
def listOp (cfg : Config) (s : DBState) : Response :=
  listCallback cfg (.ok (sortByCreatedDesc s.rows))

/-- The `db.get` callback of `GET /api/users/:id` (src 135–175). -/
def getCallback (cfg : Config) (res : Except String (Option Row)) : Response :=
  match res with
  | .error e =>
    { status := 500, success := false, message := some "Failed to fetch user", error := some e }
  | .ok none => { status := 404, success := false, message := some "User not found" }
  | .ok (some row) => { status := 200, success := true, data := some (.user (expand row)) }

/-- Handler of `GET /api/users/:id`: select by id and shape the result. -/
def getOp (cfg : Config) (idp : String) (s : DBState) : Response :=
  getCallback cfg (.ok (findRowByParam idp s))

/-- The `db.run` callback of `POST /api/users` (src 192–213): `s` is the
database state the callback observes when the insert failed. -/
def createCallback (cfg : Config) (res : Except String (Nat × DBState)) (s : DBState) :
    Response × DBState :=
  match res with
  | .error e =>
    if includesUniqueConstraint e then
      ({ status := 400, success := false, message := some "Email already exists" }, s)
    else
      ({ status := 500, success := false, message := some "Failed to create user",
         error := some e }, s)
  | .ok (newId, s2) =>
    ({ status := 201, success := true, message := some "User created successfully",
       data := some (.createdId newId) }, s2)

/-- Handler of `POST /api/users`: validation, then insert, then the callback. -/
def createOp (cfg : Config) (p : PayloadRaw) (s : DBState) : Response × DBState :=
  let errs := validateUser p
  if errs.isEmpty then createCallback cfg (runInsert (storedFields p) s) s
  else (validationFailedResponse errs, s)

/-- The `db.run` callback of `PUT /api/users/:id` (src 233–260). -/
def updateCallback (cfg : Config) (res : Except String (Nat × DBState)) (s : DBState) :
    Response × DBState :=
  match res with
  | .error e =>
    if includesUniqueConstraint e then
      ({ status := 400, success := false, message := some "Email already exists" }, s)
    else
      ({ status := 500, success := false, message := some "Failed to update user",
         error := some e }, s)
  | .ok (changes, s2) =>
    if changes == 0 then
      ({ status := 404, success := false, message := some "User not found" }, s2)
    else
      ({ status := 200, success := true, message := some "User updated successfully" }, s2)

/-- Handler of `PUT /api/users/:id`: validation, then update, then the callback. -/
def updateOp (cfg : Config) (idp : String) (p : PayloadRaw) (s : DBState) :
    Response × DBState :=
  let errs := validateUser p
  if errs.isEmpty then updateCallback cfg (runUpdate idp (storedFields p) s) s
  else (validationFailedResponse errs, s)

/-- The `db.run` callback of `DELETE /api/users/:id` (src 268–289). -/
def deleteCallback (cfg : Config) (res : Except String (Nat × DBState)) (s : DBState) :
    Response × DBState :=
  match res with
  | .error e =>
    ({ status := 500, success := false, message := some "Failed to delete user",
       error := some e }, s)
  | .ok (changes, s2) =>
    if changes == 0 then
      ({ status := 404, success := false, message := some "User not found" }, s2)
    else
      ({ status := 200, success := true, message := some "User deleted successfully" }, s2)

/-- Handler of `DELETE /api/users/:id`: delete by id, then the callback. -/
def deleteOp (cfg : Config) (idp : String) (s : DBState) : Response × DBState :=
  deleteCallback cfg (.ok (runDelete idp s)) s

/-- Handler of `GET /api/health` (src 293–299): always succeeds, reporting the current
time; independent of storage. -/
def healthOp (cfg : Config) (now : Nat) : Response :=
  { status := 200, success := true, message := some "Server is running", timestamp := some now }

/-- The final error-handling middleware (src 302–309): raw detail only in
development mode, a generic message otherwise. -/
def errorMiddleware (cfg : Config) (e : String) : Response :=
  { status := 500, success := false, message := some "Internal server error"
  , error := some (if cfg.nodeEnv == some "development" then e else "Something went wrong") }

/-- The catch-all 404 route (src 312–317). -/
def routeNotFound (cfg : Config) : Response :=
  { status := 404, success := false, message := some "Route not found" }

/-- Erase every JSON member the handlers never destructure, at all three
nesting levels, keeping the nine specified fields. -/
def stripExtras (p : PayloadRaw) : PayloadRaw :=
  { p with
    extra := []
    address := p.address.map (fun a =>
      { a with
        extra := []
        geo := a.geo.map (fun g => { g with extra := [] }) }) }

/-- The responses the service can produce: one constructor per route handler
outcome, covering the pure result of each storage operation as well as the
storage-failure branch of each callback, the health check, the final
error-handling middleware and the catch-all 404 route. -/
inductive Reachable : Response → Prop where
  | list (cfg : Config) (s : DBState) : Reachable (listOp cfg s)
  | listDbError (cfg : Config) (e : String) : Reachable (listCallback cfg (.error e))
  | get (cfg : Config) (idp : String) (s : DBState) : Reachable (getOp cfg idp s)
  | getDbError (cfg : Config) (e : String) : Reachable (getCallback cfg (.error e))
  | create (cfg : Config) (p : PayloadRaw) (s : DBState) : Reachable (createOp cfg p s).1
  | createDbError (cfg : Config) (e : String) (s : DBState) :
      Reachable (createCallback cfg (.error e) s).1
  | update (cfg : Config) (idp : String) (p : PayloadRaw) (s : DBState) :
      Reachable (updateOp cfg idp p s).1
  | updateDbError (cfg : Config) (e : String) (s : DBState) :
      Reachable (updateCallback cfg (.error e) s).1
  | del (cfg : Config) (idp : String) (s : DBState) : Reachable (deleteOp cfg idp s).1
  | deleteDbError (cfg : Config) (e : String) (s : DBState) :
      Reachable (deleteCallback cfg (.error e) s).1
  | health (cfg : Config) (now : Nat) : Reachable (healthOp cfg now)
  | middleware (cfg : Config) (e : String) : Reachable (errorMiddleware cfg e)
  | notFound (cfg : Config) : Reachable (routeNotFound cfg)

/-! ## Sample inputs for concrete instantiations -/

/-- A sample valid `address.geo` object. -/
def sampleGeo : GeoRaw := { lat := some "40.73", lng := some "-74.0", extra := [] }

/-- A sample valid `address` object. -/
def sampleAddress : AddressRaw :=
  { street := some "1 Main St", city := some "Springfield", zip := some "10001"
  , geo := some sampleGeo, extra := [] }

/-- A sample valid create/update body. -/
def samplePayload : PayloadRaw :=
  { name := some "Alice", email := some "alice@example.com", phone := some "555-0100"
  , company := some "ACME", address := some sampleAddress, extra := [] }

/-- The sample body with a second, distinct email. -/
def samplePayloadB : PayloadRaw := { samplePayload with email := some "bob@example.com" }

/-- The sample body with a third, distinct email. -/
def samplePayloadC : PayloadRaw := { samplePayload with email := some "carol@example.com" }

/-- A process environment with no `NODE_ENV` set. -/
def sampleConfig : Config := { nodeEnv := none }

/-- A production process environment. -/
def prodConfig : Config := { nodeEnv := some "production" }

/-- The database after creating `samplePayload` in a fresh database. -/
def sampleState : DBState := (createOp sampleConfig samplePayload initState).2

/-! ## Helper lemmas -/

/-- A create whose payload validates and whose email is fresh appends exactly
one row and reports 201 with the assigned id. -/
theorem create_success (cfg : Config) (p : PayloadRaw) (s : DBState)
    (hv : validateUser p = [])
    (hfresh : s.rows.any (fun r => r.email == (storedFields p).email) = false) :
    createOp cfg p s =
      ({ status := 201, success := true, message := some "User created successfully"
       , data := some (.createdId s.nextId) },
       { rows := s.rows ++ [insertRow (storedFields p) s.nextId s.clock]
       , nextId := s.nextId + 1
       , clock := s.clock + 1 }) := by
  simp [createOp, hv, runInsert, hfresh, createCallback]

/-! ## Claim theorems -/

/-- C2: applying the Record Mapper's Flatten (nested wire object to flat
column set) and then Expand (flat row to nested wire object) reproduces every
field value of the payload — name, email, phone, company, address.street,
address.city, address.zip, address.geo.lat, address.geo.lng — with the
storage-assigned timestamps excluded from the comparison. -/
theorem expand_flatten_roundtrip (x : UserPayload) (newId ts : Nat) :
    (expand (insertRow (flatten x) newId ts)).name = x.name ∧
    (expand (insertRow (flatten x) newId ts)).email = x.email ∧
    (expand (insertRow (flatten x) newId ts)).phone = x.phone ∧
    (expand (insertRow (flatten x) newId ts)).company = x.company ∧
    (expand (insertRow (flatten x) newId ts)).address.street = x.address.street ∧
    (expand (insertRow (flatten x) newId ts)).address.city = x.address.city ∧
    (expand (insertRow (flatten x) newId ts)).address.zip = x.address.zip ∧
    (expand (insertRow (flatten x) newId ts)).address.geo.lat = x.address.geo.lat ∧
    (expand (insertRow (flatten x) newId ts)).address.geo.lng = x.address.geo.lng :=
  ⟨rfl, rfl, rfl, rfl, rfl, rfl, rfl, rfl, rfl⟩

/-- C5: an update whose id matches no stored row returns the 404 not-found
envelope and leaves the database state — rows, id counter and clock —
entirely unchanged, so in particular no row is created. -/
theorem update_missing_id_not_found (cfg : Config) (idp : String) (p : PayloadRaw)
    (s : DBState) (hv : validateUser p = []) (hmiss : findRowByParam idp s = none) :
    updateOp cfg idp p s =
      ({ status := 404, success := false, message := some "User not found" }, s) := by
  simp [updateOp, hv, runUpdate, hmiss, updateCallback]

/-- Witness for C5 at a concrete input: updating id 999 of a database holding
only user 1. -/
theorem update_missing_id_not_found_witness :
    updateOp sampleConfig "999" samplePayloadB sampleState =
      ({ status := 404, success := false, message := some "User not found" }, sampleState) :=
  update_missing_id_not_found sampleConfig "999" samplePayloadB sampleState
    (by decide) (by decide)

/-- C7: a get-by-id whose id matches no stored row answers the 404 not-found
envelope carrying no data; a get-by-id that finds a row answers a success
envelope with that single user, its address and geo reconstructed as nested
objects from the flat stored columns. -/
theorem get_by_id_behavior (cfg : Config) (idp : String) (s : DBState) :
    (findRowByParam idp s = none →
      getOp cfg idp s =
        { status := 404, success := false, message := some "User not found" }) ∧
    (∀ row : Row, findRowByParam idp s = some row →
      getOp cfg idp s =
        { status := 200, success := true, data := some (.user (expand row)) }) := by
  constructor
  · intro h
    simp [getOp, h, getCallback]
  · intro row h
    simp [getOp, h, getCallback]

/-- Witness for C7 at concrete inputs: in a database holding only user 1,
getting id 2 is a 404 without data and getting id 1 returns the nested user. -/
theorem get_by_id_behavior_witness :
    getOp sampleConfig "2" sampleState =
      { status := 404, success := false, message := some "User not found" } ∧
    getOp sampleConfig "1" sampleState =
      { status := 200, success := true
      , data := some (.user (expand (insertRow (storedFields samplePayload) 1 0))) } :=
  ⟨(get_by_id_behavior sampleConfig "2" sampleState).1 (by decide),
   (get_by_id_behavior sampleConfig "1" sampleState).2
     (insertRow (storedFields samplePayload) 1 0) (by decide)⟩

/-- C9: a get-by-id, update or delete whose id path parameter is not a numeric
string is not rejected as malformed: the statement matches zero rows and the
operation answers the 404 not-found envelope (with the state unchanged for
update and delete), never a 400 validation failure. -/
theorem nonnumeric_id_not_found (cfg : Config) (idp : String) (p : PayloadRaw)
    (s : DBState) (hid : parseIdParam idp = none) (hv : validateUser p = []) :
    getOp cfg idp s =
      { status := 404, success := false, message := some "User not found" } ∧
    deleteOp cfg idp s =
      ({ status := 404, success := false, message := some "User not found" }, s) ∧
    updateOp cfg idp p s =
      ({ status := 404, success := false, message := some "User not found" }, s) := by
  have hfind : findRowByParam idp s = none := by
    simp [findRowByParam, hid]
  refine ⟨?_, ?_, ?_⟩
  · simp [getOp, hfind, getCallback]
  · simp [deleteOp, runDelete, hid, deleteCallback]
  · simp [updateOp, hv, runUpdate, hfind, updateCallback]

/-- Witness for C9 at a concrete input: id `"abc"` against a database holding
user 1. -/
theorem nonnumeric_id_not_found_witness :
    getOp sampleConfig "abc" sampleState =
      { status := 404, success := false, message := some "User not found" } ∧
    deleteOp sampleConfig "abc" sampleState =
      ({ status := 404, success := false, message := some "User not found" }, sampleState) ∧
    updateOp sampleConfig "abc" samplePayloadB sampleState =
      ({ status := 404, success := false, message := some "User not found" }, sampleState) :=
  nonnumeric_id_not_found sampleConfig "abc" samplePayloadB sampleState
    (by decide) (by decide)

/-- C10: create and update read nothing of the request body beyond the nine
specified fields: erasing every extra member, at every nesting level, changes
neither the response nor the resulting database state. -/
theorem extra_fields_ignored (cfg : Config) (idp : String) (p : PayloadRaw) (s : DBState) :
    createOp cfg p s = createOp cfg (stripExtras p) s ∧
    updateOp cfg idp p s = updateOp cfg idp (stripExtras p) s := by
  obtain ⟨n, em, ph, co, ad, ex⟩ := p
  cases ad with
  | none => exact ⟨rfl, rfl⟩
  | some a =>
    obtain ⟨st, ci, zi, ge, aex⟩ := a
    cases ge with
    | none => exact ⟨rfl, rfl⟩
    | some g => exact ⟨rfl, rfl⟩

/-- C1: a create that passes validation but whose email is already stored
answers the 400 conflict envelope, distinct from every generic
server-failure response the same handler can produce, and leaves the
database state — every previously stored row included — unchanged. -/
theorem create_duplicate_email_conflict (cfg : Config) (p : PayloadRaw) (s : DBState)
    (hv : validateUser p = [])
    (hdup : s.rows.any (fun r => r.email == (storedFields p).email) = true) :
    createOp cfg p s =
      ({ status := 400, success := false, message := some "Email already exists" }, s) ∧
    ∀ e : String, includesUniqueConstraint e = false →
      (createOp cfg p s).1 ≠ (createCallback cfg (.error e) s).1 := by
  have hinc :
      includesUniqueConstraint "SQLITE_CONSTRAINT: UNIQUE constraint failed: users.email"
        = true := by decide
  constructor
  · simp [createOp, hv, runInsert, hdup, createCallback, hinc]
  · intro e he
    simp [createOp, hv, runInsert, hdup, createCallback, hinc, he]

/-- Witness for C1 at a concrete input: creating the sample user twice in a
fresh database; the second create conflicts and the stored row survives. -/
theorem create_duplicate_email_conflict_witness :
    createOp sampleConfig samplePayload sampleState =
      ({ status := 400, success := false, message := some "Email already exists" },
       sampleState) ∧
    ∀ e : String, includesUniqueConstraint e = false →
      (createOp sampleConfig samplePayload sampleState).1 ≠
        (createCallback sampleConfig (.error e) sampleState).1 :=
  create_duplicate_email_conflict sampleConfig samplePayload sampleState
    (by decide) (by decide)

/-- C6: a create whose payload fails validation answers 400 with the
field-level error list in `errors` and leaves storage untouched; in
particular a missing `name` always contributes the name-related entry. -/
theorem create_validation_failure (cfg : Config) (p : PayloadRaw) (s : DBState)
    (hv : validateUser p ≠ []) :
    createOp cfg p s =
      ({ status := 400, success := false, message := some "Validation failed"
       , errors := some (validateUser p) }, s) ∧
    (p.name = none → { path := "name", msg := "Name is required" } ∈ validateUser p) := by
  constructor
  · cases h : validateUser p with
    | nil => exact absurd h hv
    | cons a l =>
      simp [createOp, h, validationFailedResponse]
  · intro hname
    simp [validateUser, nonEmptyAfterTrim, hname, trimStr, trimList]

/-- Witness for C6 at a concrete input: the sample body without its `name`. -/
theorem create_validation_failure_witness :
    createOp sampleConfig { samplePayload with name := none } initState =
      ({ status := 400, success := false, message := some "Validation failed"
       , errors := some (validateUser { samplePayload with name := none }) }, initState) ∧
    { path := "name", msg := "Name is required" } ∈
      validateUser { samplePayload with name := none } :=
  ⟨(create_validation_failure sampleConfig { samplePayload with name := none } initState
      (by decide)).1,
   (create_validation_failure sampleConfig { samplePayload with name := none } initState
      (by decide)).2 rfl⟩

instance : IsTotal Row createdDesc :=
  ⟨fun a b => (Nat.le_total b.created_at a.created_at).imp id id⟩

instance : IsTrans Row createdDesc :=
  ⟨fun _ _ _ hab hbc => Nat.le_trans hbc hab⟩

/-- C3: the list operation answers a success envelope holding exactly the
stored rows (a permutation of the table), expanded and sorted by creation
time descending; on an empty database it answers success with an empty
array, not an error; and after successfully creating A then B then C in a
fresh database it answers `[C, B, A]`. -/
theorem list_returns_all_desc (cfg : Config) (pA pB pC : PayloadRaw) (s : DBState)
    (hA : validateUser pA = []) (hB : validateUser pB = []) (hC : validateUser pC = [])
    (hBA : (storedFields pB).email ≠ (storedFields pA).email)
    (hCA : (storedFields pC).email ≠ (storedFields pA).email)
    (hCB : (storedFields pC).email ≠ (storedFields pB).email) :
    listOp cfg s =
      { status := 200, success := true
      , data := some (.users ((sortByCreatedDesc s.rows).map expand)) } ∧
    List.Perm (sortByCreatedDesc s.rows) s.rows ∧
    List.Sorted createdDesc (sortByCreatedDesc s.rows) ∧
    listOp cfg initState =
      { status := 200, success := true, data := some (.users []) } ∧
    (createOp cfg pA initState).1.status = 201 ∧
    (createOp cfg pB (createOp cfg pA initState).2).1.status = 201 ∧
    (createOp cfg pC (createOp cfg pB (createOp cfg pA initState).2).2).1.status = 201 ∧
    listOp cfg (createOp cfg pC (createOp cfg pB (createOp cfg pA initState).2).2).2 =
      { status := 200, success := true
      , data := some (.users
          [ expand (insertRow (storedFields pC) 3 2)
          , expand (insertRow (storedFields pB) 2 1)
          , expand (insertRow (storedFields pA) 1 0) ]) } := by
  have e1 := create_success cfg pA initState hA rfl
  have f2 : ((createOp cfg pA initState).2).rows.any
      (fun r => r.email == (storedFields pB).email) = false := by
    rw [e1]
    simp [initState, insertRow]
    exact Ne.symm hBA
  have e2 := create_success cfg pB (createOp cfg pA initState).2 hB f2
  have f3 : ((createOp cfg pB (createOp cfg pA initState).2).2).rows.any
      (fun r => r.email == (storedFields pC).email) = false := by
    rw [e2, e1]
    simp [initState, insertRow]
    exact ⟨Ne.symm hCA, Ne.symm hCB⟩
  have e3 := create_success cfg pC (createOp cfg pB (createOp cfg pA initState).2).2 hC f3
  refine ⟨rfl, List.perm_insertionSort createdDesc s.rows,
    List.sorted_insertionSort createdDesc s.rows, rfl, ?_, ?_, ?_, ?_⟩
  · rw [e1]
  · rw [e2]
  · rw [e3]
  · rw [e3, e2, e1]
    simp [initState, listOp, listCallback, sortByCreatedDesc, List.insertionSort,
      List.orderedInsert, insertRow, createdDesc]

/-- Witness for C3 at concrete inputs: three sample users with distinct
emails created in a fresh database. -/
theorem list_returns_all_desc_witness :
    listOp sampleConfig sampleState =
      { status := 200, success := true
      , data := some (.users ((sortByCreatedDesc sampleState.rows).map expand)) } ∧
    List.Perm (sortByCreatedDesc sampleState.rows) sampleState.rows ∧
    List.Sorted createdDesc (sortByCreatedDesc sampleState.rows) ∧
    listOp sampleConfig initState =
      { status := 200, success := true, data := some (.users []) } ∧
    (createOp sampleConfig samplePayload initState).1.status = 201 ∧
    (createOp sampleConfig samplePayloadB
      (createOp sampleConfig samplePayload initState).2).1.status = 201 ∧
    (createOp sampleConfig samplePayloadC (createOp sampleConfig samplePayloadB
      (createOp sampleConfig samplePayload initState).2).2).1.status = 201 ∧
    listOp sampleConfig (createOp sampleConfig samplePayloadC
      (createOp sampleConfig samplePayloadB
        (createOp sampleConfig samplePayload initState).2).2).2 =
      { status := 200, success := true
      , data := some (.users
          [ expand (insertRow (storedFields samplePayloadC) 3 2)
          , expand (insertRow (storedFields samplePayloadB) 2 1)
          , expand (insertRow (storedFields samplePayload) 1 0) ]) } :=
  list_returns_all_desc sampleConfig samplePayload samplePayloadB samplePayloadC
    sampleState (by decide) (by decide) (by decide) (by decide) (by decide) (by decide)

/-- C4 counterexample: in production mode — not development — the list
handler's storage-error response still carries the raw failure detail in its
`error` member instead of the generic substitute, refuting the claim that
outside development the raw detail is suppressed. -/
theorem storage_error_leaks_detail_in_production :
    prodConfig.nodeEnv ≠ some "development" ∧
    (listCallback prodConfig (.error "disk error")).status = 500 ∧
    (listCallback prodConfig (.error "disk error")).error = some "disk error" ∧
    some "disk error" ≠ some "Something went wrong" :=
  ⟨by decide, rfl, rfl, by decide⟩

/-- C4 amended: every storage-error branch of the route handlers answers 500
with the raw failure detail included unconditionally, in every operating
mode; only the final error-handling middleware applies the suppression
policy, substituting a generic message outside development mode. -/
theorem server_error_detail_policy (cfg : Config) (e : String) (s : DBState)
    (he : includesUniqueConstraint e = false) :
    (listCallback cfg (.error e)).status = 500 ∧
    (listCallback cfg (.error e)).error = some e ∧
    (getCallback cfg (.error e)).status = 500 ∧
    (getCallback cfg (.error e)).error = some e ∧
    (createCallback cfg (.error e) s).1.status = 500 ∧
    (createCallback cfg (.error e) s).1.error = some e ∧
    (updateCallback cfg (.error e) s).1.status = 500 ∧
    (updateCallback cfg (.error e) s).1.error = some e ∧
    (deleteCallback cfg (.error e) s).1.status = 500 ∧
    (deleteCallback cfg (.error e) s).1.error = some e ∧
    (errorMiddleware cfg e).status = 500 ∧
    (errorMiddleware cfg e).error =
      some (if cfg.nodeEnv == some "development" then e else "Something went wrong") := by
  simp [listCallback, getCallback, createCallback, updateCallback, deleteCallback,
    errorMiddleware, he]

/-- Witness for the amended C4 at a concrete input: a disk error in
production mode. -/
theorem server_error_detail_policy_witness :
    (listCallback prodConfig (.error "disk error")).status = 500 ∧
    (listCallback prodConfig (.error "disk error")).error = some "disk error" ∧
    (getCallback prodConfig (.error "disk error")).status = 500 ∧
    (getCallback prodConfig (.error "disk error")).error = some "disk error" ∧
    (createCallback prodConfig (.error "disk error") initState).1.status = 500 ∧
    (createCallback prodConfig (.error "disk error") initState).1.error = some "disk error" ∧
    (updateCallback prodConfig (.error "disk error") initState).1.status = 500 ∧
    (updateCallback prodConfig (.error "disk error") initState).1.error = some "disk error" ∧
    (deleteCallback prodConfig (.error "disk error") initState).1.status = 500 ∧
    (deleteCallback prodConfig (.error "disk error") initState).1.error = some "disk error" ∧
    (errorMiddleware prodConfig "disk error").status = 500 ∧
    (errorMiddleware prodConfig "disk error").error =
      some (if prodConfig.nodeEnv == some "development" then "disk error"
            else "Something went wrong") :=
  server_error_detail_policy prodConfig "disk error" initState (by decide)

/-- C8 counterexample: two reachable responses carry members outside
`{ success, message, data, errors }` — the health response carries
`timestamp` and the storage-error 500 envelope carries `error`. -/
theorem envelope_extra_members :
    Reachable (healthOp sampleConfig 0) ∧
    (healthOp sampleConfig 0).timestamp = some 0 ∧
    (healthOp sampleConfig 0).timestamp ≠ none ∧
    Reachable (listCallback sampleConfig (.error "disk error")) ∧
    (listCallback sampleConfig (.error "disk error")).error = some "disk error" ∧
    (listCallback sampleConfig (.error "disk error")).error ≠ none :=
  ⟨.health sampleConfig 0, rfl, by decide, .listDbError sampleConfig "disk error",
    rfl, by decide⟩

/-- C8 amended: every reachable response is an envelope over the members
`{ success, message?, data?, errors?, error?, timestamp? }`, where failure
envelopes (success = false) never carry `data`, the extra `error` member
appears only on 500 responses, the extra `timestamp` member only on the
successful health response, and a create or update failing validation
carries the field-level error list in `errors`. -/
theorem envelope_shape :
    (∀ r : Response, Reachable r →
      (r.success = false → r.data = none) ∧
      (r.error ≠ none → r.status = 500) ∧
      (r.timestamp ≠ none → r.status = 200 ∧ r.success = true)) ∧
    (∀ (cfg : Config) (idp : String) (p : PayloadRaw) (s : DBState),
      validateUser p ≠ [] →
        (createOp cfg p s).1.errors = some (validateUser p) ∧
        (updateOp cfg idp p s).1.errors = some (validateUser p)) := by
  constructor
  · intro r h
    cases h <;>
      (simp only [listOp, listCallback, getOp, getCallback, createOp, createCallback,
        runInsert, updateOp, updateCallback, runUpdate, deleteOp, deleteCallback,
        runDelete, validationFailedResponse, healthOp, errorMiddleware, routeNotFound,
        findRowByParam]
       repeat' split) <;>
      refine ⟨?_, ?_, ?_⟩ <;> intro hx <;> simp_all
  · intro cfg idp p s hv
    cases h : validateUser p with
    | nil => exact absurd h hv
    | cons a l =>
      constructor
      · simp [createOp, h, validationFailedResponse]
      · simp [updateOp, h, validationFailedResponse]

/-- Witness for the amended C8 at concrete inputs: the catch-all 404 (a
failure envelope) carries no data, and a create missing its name carries the
validation error list. -/
theorem envelope_shape_witness :
    (routeNotFound sampleConfig).data = none ∧
    (createOp sampleConfig { samplePayload with name := none } initState).1.errors =
      some (validateUser { samplePayload with name := none }) :=
  ⟨(envelope_shape.1 (routeNotFound sampleConfig) (.notFound sampleConfig)).1 rfl,
   (envelope_shape.2 sampleConfig "1" { samplePayload with name := none } initState
      (by decide)).1⟩

end UserService
